import Mathlib

/-!
Verification of the Renogy Rover integration's register codec, address
scanner and TCP client construction, embedded from the repository's
Python sources (`renogy_rover.py`, `config_flow.py`, `const.py`,
relevant lines of the integration setup module).
-/

namespace RenogyRover

/-! ## Register codec, embedded from `renogy_rover.py` -/

/-- The module-level `CHARGING_STATE` dictionary of `renogy_rover.py`:
`dict.get` semantics, `none` for keys outside the table. -/
def CHARGING_STATE (code : Nat) : Option String :=
  if code = 0 then some "deactivated"
  else if code = 1 then some "activated"
  else if code = 2 then some "mppt"
  else if code = 3 then some "equalizing"
  else if code = 4 then some "boost"
  else if code = 5 then some "floating"
  else if code = 6 then some "current limiting"
  else none

/-- The module-level `BATTERY_TYPE` dictionary of `renogy_rover.py`:
`dict.get` semantics, `none` for keys outside the table. -/
def BATTERY_TYPE (code : Nat) : Option String :=
  if code = 1 then some "open"
  else if code = 2 then some "sealed"
  else if code = 3 then some "gel"
  else if code = 4 then some "lithium"
  else if code = 5 then some "self-customized"
  else none

/-- `RenogyRover.charging_status`: the low byte of the word read from
register 288. -/
def charging_status (register : Nat) : Nat :=
  register &&& 0x00FF

/-- `RenogyRover.charging_status_label`: `CHARGING_STATE.get(...)` applied to
the charging status byte. -/
def charging_status_label (register : Nat) : Option String :=
  CHARGING_STATE (charging_status register)

/-- `RenogyRover.battery_type`: `BATTERY_TYPE.get(register)` on the whole
word read from register 57348. -/
def battery_type (register : Nat) : Option String :=
  BATTERY_TYPE register

/-- The spec's charging-status decode (section 4.1): indices 0..6 map to the
seven labels, every other index is an `UnrecognizedEnum` error. -/
inductive DecodeError where
  | unrecognizedEnum
deriving DecidableEq

/-- Spec-side charging-status decode: the fixed 7-entry enumeration, unknown
index yields the `UnrecognizedEnum` error rather than a null. -/
def specChargingStatusDecode (idx : Nat) : Except DecodeError String :=
  if idx = 0 then .ok "deactivated"
  else if idx = 1 then .ok "activated"
  else if idx = 2 then .ok "mppt"
  else if idx = 3 then .ok "equalizing"
  else if idx = 4 then .ok "boost"
  else if idx = 5 then .ok "floating"
  else if idx = 6 then .ok "current limiting"
  else .error .unrecognizedEnum

/-- Spec-side battery-type decode: the fixed 5-entry enumeration, unmapped
code yields the `UnrecognizedEnum` error rather than a null. -/
def specBatteryTypeDecode (code : Nat) : Except DecodeError String :=
  if code = 1 then .ok "open"
  else if code = 2 then .ok "sealed"
  else if code = 3 then .ok "gel"
  else if code = 4 then .ok "lithium"
  else if code = 5 then .ok "self-customized"
  else .error .unrecognizedEnum

/-- `RenogyRover.version`: reads four words at register 20 and slices bytes
into the two version strings. List access `registers[i]` is total here
because the read always yields four words; out-of-range access defaults
to 0. -/
def version (registers : List Nat) : String × String :=
  let soft_major := registers.getD 0 0 &&& 0x00FF
  let soft_minor := registers.getD 1 0 >>> 8
  let soft_patch := registers.getD 1 0 &&& 0x00FF
  let hard_major := registers.getD 2 0 &&& 0x00FF
  let hard_minor := registers.getD 3 0 >>> 8
  let hard_patch := registers.getD 3 0 &&& 0x00FF
  let software_version := s!"V{soft_major}.{soft_minor}.{soft_patch}"
  let hardware_version := s!"V{hard_major}.{hard_minor}.{hard_patch}"
  (software_version, hardware_version)

/-- `RenogyRover.serial_number`: reads two words at register 24 and
concatenates their decimal string representations with no separator. -/
def serial_number (registers : List Nat) : String :=
  let r0 := registers.getD 0 0
  let r1 := registers.getD 1 0
  s!"{r0}{r1}"

/-- `RenogyRover.battery_temperature`: low byte of the word at register 259,
sign-magnitude decoded. -/
def battery_temperature (register : Nat) : Int :=
  let battery_temp_bits := register &&& 0x00FF
  let temp_value := battery_temp_bits &&& 0x0FF
  let sign := battery_temp_bits >>> 7
  if sign = 1 then -((temp_value : Int) - 128) else (temp_value : Int)

/-- `RenogyRover.controller_temperature`: high byte of the word at register
259, sign-magnitude decoded. -/
def controller_temperature (register : Nat) : Int :=
  let controller_temp_bits := register >>> 8
  let temp_value := controller_temp_bits &&& 0x0FF
  let sign := controller_temp_bits >>> 7
  if sign = 1 then -((temp_value : Int) - 128) else (temp_value : Int)

/-- The spec's per-byte sign-magnitude decode rule: top bit 1 means
`-(b - 128)`, top bit 0 means `b` unchanged. -/
def byteSignMagDecode (b : Nat) : Int :=
  if b >>> 7 = 1 then -((b : Int) - 128) else (b : Int)

/-- Sign-magnitude encoding of a temperature in [-127, 127]: a negative t
is stored as 128 + |t| (top bit set), a non-negative t as itself. -/
def byteSignMagEncode (t : Int) : Nat :=
  if t < 0 then (128 - t).toNat else t.toNat

/-- Decimal scaling performed by the modbus library's `read_register` when
called with `number_of_decimals`, modelled as exact rational division by
the corresponding power of ten (the library itself is outside this
repository). -/
def read_register_decimals (raw : Nat) (number_of_decimals : Nat) : ℚ :=
  (raw : ℚ) / 10 ^ number_of_decimals

/-- `RenogyRover.battery_voltage`: register 257 with one implied decimal. -/
def battery_voltage (raw : Nat) : ℚ := read_register_decimals raw 1

/-- `RenogyRover.load_voltage`: register 260 with one implied decimal. -/
def load_voltage (raw : Nat) : ℚ := read_register_decimals raw 1

/-- `RenogyRover.load_current`: register 261 with two implied decimals. -/
def load_current (raw : Nat) : ℚ := read_register_decimals raw 2

/-- `RenogyRover.solar_voltage`: register 263 with one implied decimal. -/
def solar_voltage (raw : Nat) : ℚ := read_register_decimals raw 1

/-- `RenogyRover.solar_current`: register 264 with two implied decimals. -/
def solar_current (raw : Nat) : ℚ := read_register_decimals raw 2

/-! ## Helper lemmas on bitwise operations -/

theorem and_255_eq_mod (n : Nat) : n &&& 255 = n % 256 := by
  simpa using Nat.and_pow_two_sub_one_eq_mod n 8

theorem shiftRight_7_eq_div (n : Nat) : n >>> 7 = n / 128 := by
  simpa using Nat.shiftRight_eq_div_pow n 7

theorem shiftRight_8_eq_div (n : Nat) : n >>> 8 = n / 256 := by
  simpa using Nat.shiftRight_eq_div_pow n 8

end RenogyRover

namespace RenogyRover

/-! ## Claims about the codec -/

/-- Claim C4 (counterexample): on the unknown charging-status index 7 and the
unmapped battery-type code 6 the code returns the silent null `none`
where the claim demands an `UnrecognizedEnum` error: the spec-side decode
errors there while the code's lookup yields `none`. -/
theorem enum_decode_counterexample :
    charging_status_label 7 = none ∧
    specChargingStatusDecode 7 = .error .unrecognizedEnum ∧
    battery_type 6 = none ∧
    specBatteryTypeDecode 6 = .error .unrecognizedEnum := by
  refine ⟨rfl, rfl, rfl, rfl⟩

/-- Claim C4 (amended): the charging-status decode maps low-byte indices 0..6
exactly to the fixed seven labels and the battery-type decode maps codes
1..5 exactly to the fixed five labels, but each maps every other code to
the silent null `none` (a `dict.get` miss), not to an `UnrecognizedEnum`
error; the code agrees with the spec's enumeration tables exactly up to
collapsing the error into `none`. -/
theorem enum_decode_silent_none (register code : Nat) :
    charging_status_label register =
      (specChargingStatusDecode (charging_status register)).toOption ∧
    battery_type code = (specBatteryTypeDecode code).toOption := by
  constructor
  · unfold charging_status_label CHARGING_STATE specChargingStatusDecode
    split_ifs <;> rfl
  · unfold battery_type BATTERY_TYPE specBatteryTypeDecode
    split_ifs <;> rfl

/-- Claim C5 (counterexample): on the words [0x0105, 0x0203, 0x0107, 0x0402]
the version decode does not produce ("V1.2.3", "V1.4.2"): the low byte of
word 0 is 5 and the low byte of word 2 is 7, so the claimed output
contradicts the claimed low-byte slicing rule. -/
theorem version_decode_counterexample :
    version [0x0105, 0x0203, 0x0107, 0x0402] ≠ ("V1.2.3", "V1.4.2") := by
  decide

/-- Claim C5 (amended): on the words [0x0105, 0x0203, 0x0107, 0x0402] the
version decode produces software "V5.2.3" and hardware "V7.4.2",
following the rule software = V{word0 low byte}.{word1 high byte}.{word1
low byte} and hardware = V{word2 low byte}.{word3 high byte}.{word3 low
byte}. -/
theorem version_decode_amended :
    version [0x0105, 0x0203, 0x0107, 0x0402] = ("V5.2.3", "V7.4.2") := by
  decide

/-- Claim C6: battery_temperature decodes the low byte and
controller_temperature the high byte of the register-259 word, each by
the sign-magnitude byte rule (top bit 1 decodes b to -(b - 128), top bit
0 to b), and that byte decode is a left inverse of sign-magnitude
encoding on [-127, 127]. -/
theorem temperature_sign_magnitude (register : Nat) (hreg : register < 65536)
    (t : Int) (hlo : -127 ≤ t) (hhi : t ≤ 127) :
    battery_temperature register = byteSignMagDecode (register % 256) ∧
    controller_temperature register = byteSignMagDecode (register / 256) ∧
    byteSignMagDecode (byteSignMagEncode t) = t := by
  refine ⟨?_, ?_, ?_⟩
  · unfold battery_temperature byteSignMagDecode
    simp only [and_255_eq_mod, shiftRight_7_eq_div]
    have hb : register % 256 % 256 = register % 256 := by omega
    rw [hb]
  · unfold controller_temperature byteSignMagDecode
    simp only [and_255_eq_mod, shiftRight_7_eq_div, shiftRight_8_eq_div]
    have hb : register / 256 % 256 = register / 256 := by omega
    rw [hb]
  · unfold byteSignMagDecode byteSignMagEncode
    rw [shiftRight_7_eq_div]
    by_cases hneg : t < 0
    · rw [if_pos hneg]
      have hn : ((128 - t).toNat : Int) = 128 - t := Int.toNat_of_nonneg (by omega)
      have hdiv : (128 - t).toNat / 128 = 1 := by omega
      rw [if_pos hdiv, hn]
      ring
    · rw [if_neg hneg]
      have hn : (t.toNat : Int) = t := Int.toNat_of_nonneg (by omega)
      have hdiv : t.toNat / 128 = 0 := by omega
      rw [if_neg (by omega : ¬ t.toNat / 128 = 1), hn]

/-- Claim C6 witness: the theorem instantiated at register 0x8572 (low byte
0x72 = 114, high byte 0x85 = 133) and temperature -42. -/
theorem temperature_sign_magnitude_witness :
    battery_temperature 34162 = byteSignMagDecode (34162 % 256) ∧
    controller_temperature 34162 = byteSignMagDecode (34162 / 256) ∧
    byteSignMagDecode (byteSignMagEncode (-42)) = -42 :=
  temperature_sign_magnitude 34162 (by decide) (-42) (by decide) (by decide)

/-- Claim C7: for every raw register word, the battery, load and solar
voltage decodes are exactly raw divided by 10 and the load and solar
current decodes are exactly raw divided by 100, as exact rational
scaling. -/
theorem voltage_current_scaling (raw : Nat) (h : raw < 65536) :
    battery_voltage raw = (raw : ℚ) / 10 ∧
    load_voltage raw = (raw : ℚ) / 10 ∧
    solar_voltage raw = (raw : ℚ) / 10 ∧
    load_current raw = (raw : ℚ) / 100 ∧
    solar_current raw = (raw : ℚ) / 100 := by
  refine ⟨?_, ?_, ?_, ?_, ?_⟩ <;>
    simp [battery_voltage, load_voltage, solar_voltage, load_current,
      solar_current, read_register_decimals] <;> norm_num

/-- Claim C7 witness: the theorem instantiated at raw = 1234. -/
theorem voltage_current_scaling_witness :
    battery_voltage 1234 = ((1234 : Nat) : ℚ) / 10 ∧
    load_voltage 1234 = ((1234 : Nat) : ℚ) / 10 ∧
    solar_voltage 1234 = ((1234 : Nat) : ℚ) / 10 ∧
    load_current 1234 = ((1234 : Nat) : ℚ) / 100 ∧
    solar_current 1234 = ((1234 : Nat) : ℚ) / 100 :=
  voltage_current_scaling 1234 (by decide)

/-- Claim C10: the serial-number decode is not injective: the distinct word
pairs [1, 23] and [12, 3] both decode to "123", because the two words'
decimal representations are concatenated with no padding and no
separator. -/
theorem serial_number_not_injective :
    serial_number [1, 23] = "123" ∧
    serial_number [12, 3] = "123" ∧
    ([1, 23] : List Nat) ≠ [12, 3] := by
  refine ⟨rfl, rfl, by decide⟩

end RenogyRover

namespace ConfigFlow

/-! ## Address scanner, embedded from `config_flow.py` and `const.py` -/

/-- `const.MIN_DEVICE_ADDRESS`. -/
def MIN_DEVICE_ADDRESS : Nat := 1

/-- `const.MAX_DEVICE_ADDRESS`. -/
def MAX_DEVICE_ADDRESS : Nat := 247

/-- The identifying fields gathered in one scan pass: serial number,
software and hardware version, model. -/
structure DeviceInfo where
  serial : String
  sw_version : String
  hw_version : String
  model : String
deriving DecidableEq

/-- Outcome of probing one candidate address: the transport either answers
the identifying reads with device info, times out (`NoResponseError`),
fails opening the port (`SerialException` carrying an errno), or raises
some other exception. -/
inductive ProbeOutcome where
  | found (info : DeviceInfo)
  | noResponse
  | serialError (errno : Nat)
  | otherError
deriving DecidableEq

/-- The errors `connect_and_read_device_info` can raise. -/
inductive ScanError where
  | invalidPort
  | cannotOpenPort
  | noDeviceFound
  | otherErr
  | cannotConnect
deriving DecidableEq

/-- The scan loop of `connect_and_read_device_info` (UART branch), iterated
over the list of candidate addresses: a successful probe stops the loop
with the address and the info read in the same pass; a `SerialException`
raises `InvalidPort` when its errno is 19 and `CannotOpenPort` otherwise;
a `NoResponseError` raises `NoDeviceFound` when the address equals the
last address of the range and otherwise continues; any other exception is
re-raised. The empty list mirrors the loop falling through with the
empty info dict. -/
def scanList (behaviour : Nat → ProbeOutcome) (max_device_address : Nat) :
    List Nat → Except ScanError (Option (Nat × DeviceInfo))
  | [] => .ok none
  | device_address :: rest =>
    match behaviour device_address with
    | .found info => .ok (some (device_address, info))
    | .serialError errno =>
      if errno = 19 then .error .invalidPort else .error .cannotOpenPort
    | .noResponse =>
      if device_address = max_device_address then .error .noDeviceFound
      else scanList behaviour max_device_address rest
    | .otherError => .error .otherErr

/-- The same loop instrumented to record which addresses get probed, in
order: identical recursion structure to `scanList`. -/
def scanTrace (behaviour : Nat → ProbeOutcome) (max_device_address : Nat) :
    List Nat → List Nat
  | [] => []
  | device_address :: rest =>
    match behaviour device_address with
    | .found _ => [device_address]
    | .serialError _ => [device_address]
    | .noResponse =>
      if device_address = max_device_address then [device_address]
      else device_address :: scanTrace behaviour max_device_address rest
    | .otherError => [device_address]

/-- `connect_and_read_device_info` (UART branch): both ends of the scanned
range come from `data.get(ATTR_DEVICE_ADDRESS, ...)` with the constants
as defaults, so a configured address yields the single-address range and
an absent one yields [1, 247]; the loop runs over `range(min, max + 1)`. -/
def connect_and_read_device_info (behaviour : Nat → ProbeOutcome)
    (data_device_address : Option Nat) :
    Except ScanError (Option (Nat × DeviceInfo)) :=
  let min_device_address := data_device_address.getD MIN_DEVICE_ADDRESS
  let max_device_address := data_device_address.getD MAX_DEVICE_ADDRESS
  scanList behaviour max_device_address
    (List.range' min_device_address (max_device_address + 1 - min_device_address))

/-- The probed-address trace of `connect_and_read_device_info`. -/
def connect_trace (behaviour : Nat → ProbeOutcome)
    (data_device_address : Option Nat) : List Nat :=
  let min_device_address := data_device_address.getD MIN_DEVICE_ADDRESS
  let max_device_address := data_device_address.getD MAX_DEVICE_ADDRESS
  scanTrace behaviour max_device_address
    (List.range' min_device_address (max_device_address + 1 - min_device_address))

/-- The TCP branch of `connect_and_read_device_info`: a single probe of the
configured endpoint; every exception is wrapped into `CannotConnect`. -/
def connect_tcp (outcome : ProbeOutcome) : Except ScanError DeviceInfo :=
  match outcome with
  | .found info => .ok info
  | .noResponse => .error .cannotConnect
  | .serialError _ => .error .cannotConnect
  | .otherError => .error .cannotConnect

/-! ## Step lemmas for the scan loop -/

theorem scanList_cons_found (behaviour : Nat → ProbeOutcome) (hi a : Nat)
    (rest : List Nat) (info : DeviceInfo) (h : behaviour a = .found info) :
    scanList behaviour hi (a :: rest) = .ok (some (a, info)) := by
  simp [scanList, h]

theorem scanList_cons_serial (behaviour : Nat → ProbeOutcome) (hi a : Nat)
    (rest : List Nat) (errno : Nat) (h : behaviour a = .serialError errno) :
    scanList behaviour hi (a :: rest) =
      if errno = 19 then .error .invalidPort else .error .cannotOpenPort := by
  simp [scanList, h]

theorem scanList_cons_noResponse_last (behaviour : Nat → ProbeOutcome) (hi a : Nat)
    (rest : List Nat) (h : behaviour a = .noResponse) (ha : a = hi) :
    scanList behaviour hi (a :: rest) = .error .noDeviceFound := by
  subst ha
  simp [scanList, h]

theorem scanList_cons_noResponse (behaviour : Nat → ProbeOutcome) (hi a : Nat)
    (rest : List Nat) (h : behaviour a = .noResponse) (ha : a ≠ hi) :
    scanList behaviour hi (a :: rest) = scanList behaviour hi rest := by
  simp [scanList, h, ha]

theorem scanTrace_cons_found (behaviour : Nat → ProbeOutcome) (hi a : Nat)
    (rest : List Nat) (info : DeviceInfo) (h : behaviour a = .found info) :
    scanTrace behaviour hi (a :: rest) = [a] := by
  simp [scanTrace, h]

theorem scanTrace_cons_serial (behaviour : Nat → ProbeOutcome) (hi a : Nat)
    (rest : List Nat) (errno : Nat) (h : behaviour a = .serialError errno) :
    scanTrace behaviour hi (a :: rest) = [a] := by
  simp [scanTrace, h]

theorem scanTrace_cons_other (behaviour : Nat → ProbeOutcome) (hi a : Nat)
    (rest : List Nat) (h : behaviour a = .otherError) :
    scanTrace behaviour hi (a :: rest) = [a] := by
  simp [scanTrace, h]

theorem scanTrace_cons_noResponse_last (behaviour : Nat → ProbeOutcome) (hi a : Nat)
    (rest : List Nat) (h : behaviour a = .noResponse) (ha : a = hi) :
    scanTrace behaviour hi (a :: rest) = [a] := by
  subst ha
  simp [scanTrace, h]

theorem scanTrace_cons_noResponse (behaviour : Nat → ProbeOutcome) (hi a : Nat)
    (rest : List Nat) (h : behaviour a = .noResponse) (ha : a ≠ hi) :
    scanTrace behaviour hi (a :: rest) = a :: scanTrace behaviour hi rest := by
  simp [scanTrace, h, ha]

/-! ## Helper lemmas about whole scans -/

theorem range'_snoc (s n : Nat) :
    List.range' s (n + 1) = List.range' s n ++ [s + n] := by
  induction n generalizing s with
  | zero => rfl
  | succ m ih =>
    have h1 : List.range' s (m + 2) = s :: List.range' (s + 1) (m + 1) := rfl
    have h2 : List.range' s (m + 1) = s :: List.range' (s + 1) m := rfl
    rw [h1, ih (s + 1), h2]
    have h3 : s + 1 + m = s + (m + 1) := by omega
    rw [h3]
    rfl

/-- Scanning skips a run of non-answering addresses strictly below `a`
(provided `a` is at most the last-address check value), reducing to the
scan of the remaining range starting at `a`; the trace records the
skipped addresses first. -/
theorem scan_skip_aux (behaviour : Nat → ProbeOutcome) (hi a : Nat)
    (hahi : a ≤ hi) :
    ∀ k lo, lo ≤ a → a < lo + k →
    (∀ x, lo ≤ x → x < a → behaviour x = .noResponse) →
    scanList behaviour hi (List.range' lo k) =
      scanList behaviour hi (List.range' a (lo + k - a)) ∧
    scanTrace behaviour hi (List.range' lo k) =
      List.range' lo (a - lo) ++
        scanTrace behaviour hi (List.range' a (lo + k - a)) := by
  intro k
  induction k with
  | zero =>
    intro lo h1 h2 _
    exact absurd h2 (by omega)
  | succ m ih =>
    intro lo h1 h2 hbefore
    by_cases hla : lo = a
    · subst hla
      have h3 : lo + (m + 1) - lo = m + 1 := by omega
      rw [h3]
      exact ⟨rfl, by simp⟩
    · have hlt : lo < a := by omega
      have hno : behaviour lo = .noResponse := hbefore lo (Nat.le_refl lo) hlt
      have hlohi : lo ≠ hi := by omega
      have step : List.range' lo (m + 1) = lo :: List.range' (lo + 1) m := rfl
      have ihs := ih (lo + 1) (by omega) (by omega)
        (fun x hx1 hx2 => hbefore x (by omega) hx2)
      have harith : lo + 1 + m - a = lo + (m + 1) - a := by omega
      rw [harith] at ihs
      refine ⟨?_, ?_⟩
      · rw [step, scanList_cons_noResponse behaviour hi lo _ hno hlohi]
        exact ihs.1
      · rw [step, scanTrace_cons_noResponse behaviour hi lo _ hno hlohi]
        rw [ihs.2]
        have hcnt : a - lo = (a - (lo + 1)) + 1 := by omega
        rw [hcnt]
        have hrange : List.range' lo ((a - (lo + 1)) + 1) =
            lo :: List.range' (lo + 1) (a - (lo + 1)) := rfl
        rw [hrange]
        rfl

/-- A scan over a range covering exactly [lo, hi] in which every address of
the range times out raises `NoDeviceFound` after probing the whole range
in order. -/
theorem scan_none_aux (behaviour : Nat → ProbeOutcome) (hi : Nat) :
    ∀ k lo, 1 ≤ k → lo + k = hi + 1 →
    (∀ x, lo ≤ x → x ≤ hi → behaviour x = .noResponse) →
    scanList behaviour hi (List.range' lo k) = .error .noDeviceFound ∧
    scanTrace behaviour hi (List.range' lo k) = List.range' lo k := by
  intro k
  induction k with
  | zero =>
    intro lo h1 h2 _
    exact absurd h1 (by omega)
  | succ m ih =>
    intro lo h1 h2 hall
    have hno : behaviour lo = .noResponse := hall lo (Nat.le_refl lo) (by omega)
    have step : List.range' lo (m + 1) = lo :: List.range' (lo + 1) m := rfl
    rcases Nat.eq_zero_or_pos m with hm | hm
    · subst hm
      have hlohi : lo = hi := by omega
      constructor
      · rw [step, scanList_cons_noResponse_last behaviour hi lo _ hno hlohi]
      · rw [step, scanTrace_cons_noResponse_last behaviour hi lo _ hno hlohi]
        rfl
    · have hlohi : lo ≠ hi := by omega
      have ihs := ih (lo + 1) (by omega) (by omega)
        (fun x hx1 hx2 => hall x (by omega) hx2)
      constructor
      · rw [step, scanList_cons_noResponse behaviour hi lo _ hno hlohi]
        exact ihs.1
      · rw [step, scanTrace_cons_noResponse behaviour hi lo _ hno hlohi]
        rw [ihs.2]

/-- Every probed address comes from the candidate list. -/
theorem scanTrace_subset (behaviour : Nat → ProbeOutcome) (hi : Nat) :
    ∀ l : List Nat, scanTrace behaviour hi l ⊆ l := by
  intro l
  induction l with
  | nil =>
    intro x hx
    simp [scanTrace] at hx
  | cons a rest ih =>
    intro x hx
    cases hb : behaviour a with
    | found info =>
      rw [scanTrace_cons_found behaviour hi a rest info hb] at hx
      rw [List.mem_singleton] at hx
      exact hx ▸ List.mem_cons_self a rest
    | serialError errno =>
      rw [scanTrace_cons_serial behaviour hi a rest errno hb] at hx
      rw [List.mem_singleton] at hx
      exact hx ▸ List.mem_cons_self a rest
    | otherError =>
      rw [scanTrace_cons_other behaviour hi a rest hb] at hx
      rw [List.mem_singleton] at hx
      exact hx ▸ List.mem_cons_self a rest
    | noResponse =>
      by_cases ha : a = hi
      · rw [scanTrace_cons_noResponse_last behaviour hi a rest hb ha] at hx
        rw [List.mem_singleton] at hx
        exact hx ▸ List.mem_cons_self a rest
      · rw [scanTrace_cons_noResponse behaviour hi a rest hb ha] at hx
        rcases List.mem_cons.mp hx with h | h
        · exact h ▸ List.mem_cons_self a rest
        · exact List.mem_cons_of_mem a (ih h)

/-- The trace of a default-range scan is the trace over [1, 247]. -/
theorem connect_trace_none (behaviour : Nat → ProbeOutcome) :
    connect_trace behaviour none = scanTrace behaviour 247 (List.range' 1 247) :=
  rfl

/-- The trace of a single-address scan runs over the one-element range. -/
theorem connect_trace_some (behaviour : Nat → ProbeOutcome) (a : Nat) :
    connect_trace behaviour (some a) = scanTrace behaviour a (List.range' a 1) := by
  have hc : a + 1 - a = 1 := by omega
  show scanTrace behaviour a (List.range' a (a + 1 - a)) = _
  rw [hc]

end ConfigFlow

namespace ConfigFlow

/-! ## Concrete behaviours used as witnesses -/

/-- A transport on which no address ever answers. -/
def probe_none : Nat → ProbeOutcome := fun _ => ProbeOutcome.noResponse

/-- Example identifying fields returned by a responding device. -/
def info_ex : DeviceInfo := ⟨"9876543210", "V1.0.2", "V1.0.3", "RNG-CTRL-RVR40"⟩

/-- A transport on which exactly address 2 answers. -/
def probe_two : Nat → ProbeOutcome :=
  fun a => if a = 2 then ProbeOutcome.found info_ex else ProbeOutcome.noResponse

/-- A transport on which address 1 fails with a serial-open error
(errno 19, no such device). -/
def probe_port_error : Nat → ProbeOutcome :=
  fun a => if a = 1 then ProbeOutcome.serialError 19 else ProbeOutcome.noResponse

/-! ## Claims about the scanner -/

/-- Claim C1: over an address range [lo, hi], whenever some address a in the
range answers the identifying read and every lower address of the range
times out, the scan probes lo, lo+1, ..., a in ascending order, stops at
a, never probes any address greater than a, and returns the discovered
address together with the identifying fields read in that same pass. -/
theorem scan_stops_at_first_responder (behaviour : Nat → ProbeOutcome)
    (lo hi a : Nat) (info : DeviceInfo)
    (hloa : lo ≤ a) (hahi : a ≤ hi)
    (hfound : behaviour a = .found info)
    (hbefore : ∀ x, lo ≤ x → x < a → behaviour x = .noResponse) :
    scanList behaviour hi (List.range' lo (hi + 1 - lo)) = .ok (some (a, info)) ∧
    scanTrace behaviour hi (List.range' lo (hi + 1 - lo)) =
      List.range' lo (a + 1 - lo) := by
  obtain ⟨hL, hT⟩ :=
    scan_skip_aux behaviour hi a hahi (hi + 1 - lo) lo hloa (by omega) hbefore
  have hk : lo + (hi + 1 - lo) - a = (hi - a) + 1 := by omega
  rw [hk] at hL hT
  have hsplit : List.range' a ((hi - a) + 1) = a :: List.range' (a + 1) (hi - a) := rfl
  rw [hsplit] at hL hT
  rw [scanList_cons_found behaviour hi a _ info hfound] at hL
  rw [scanTrace_cons_found behaviour hi a _ info hfound] at hT
  refine ⟨hL, ?_⟩
  rw [hT]
  have h1 : a + 1 - lo = (a - lo) + 1 := by omega
  rw [h1, range'_snoc]
  have h2 : lo + (a - lo) = a := by omega
  rw [h2]

/-- Claim C1 witness: over the range [1, 3] with only address 2 answering,
the scan returns address 2 with the info and probes exactly 1 then 2. -/
theorem scan_stops_at_first_responder_witness :
    scanList probe_two 3 (List.range' 1 3) = .ok (some (2, info_ex)) ∧
    scanTrace probe_two 3 (List.range' 1 3) = List.range' 1 2 :=
  scan_stops_at_first_responder probe_two 1 3 2 info_ex (by decide) (by decide) rfl
    (by
      intro x h1 h2
      have hx : x = 1 := by omega
      subst hx
      rfl)

/-- Claim C2: whenever the scan reaches an address whose probe fails with a
serial-open error (every lower address of the range having timed out),
it aborts right there — the trace stops at that address, so no higher
address is ever probed — and raises `InvalidPort` for errno 19 and
`CannotOpenPort` otherwise; likewise the TCP branch turns every failed
probe into an immediate `CannotConnect`. -/
theorem scan_aborts_on_port_error (behaviour : Nat → ProbeOutcome)
    (lo hi x errno : Nat)
    (hlox : lo ≤ x) (hxhi : x ≤ hi)
    (herr : behaviour x = .serialError errno)
    (hbefore : ∀ y, lo ≤ y → y < x → behaviour y = .noResponse) :
    scanList behaviour hi (List.range' lo (hi + 1 - lo)) =
      (if errno = 19 then .error .invalidPort else .error .cannotOpenPort) ∧
    scanTrace behaviour hi (List.range' lo (hi + 1 - lo)) =
      List.range' lo (x + 1 - lo) ∧
    (∀ outcome : ProbeOutcome, (∀ i, outcome ≠ .found i) →
      connect_tcp outcome = .error .cannotConnect) := by
  obtain ⟨hL, hT⟩ :=
    scan_skip_aux behaviour hi x hxhi (hi + 1 - lo) lo hlox (by omega) hbefore
  have hk : lo + (hi + 1 - lo) - x = (hi - x) + 1 := by omega
  rw [hk] at hL hT
  have hsplit : List.range' x ((hi - x) + 1) = x :: List.range' (x + 1) (hi - x) := rfl
  rw [hsplit] at hL hT
  rw [scanList_cons_serial behaviour hi x _ errno herr] at hL
  rw [scanTrace_cons_serial behaviour hi x _ errno herr] at hT
  refine ⟨hL, ?_, ?_⟩
  · rw [hT]
    have h1 : x + 1 - lo = (x - lo) + 1 := by omega
    rw [h1, range'_snoc]
    have h2 : lo + (x - lo) = x := by omega
    rw [h2]
  · intro outcome houtcome
    cases outcome with
    | found i => exact absurd rfl (houtcome i)
    | noResponse => rfl
    | serialError e => rfl
    | otherError => rfl

/-- Claim C2 witness: over the range [1, 3] with address 1 failing with
errno 19, the scan raises `InvalidPort` after probing only address 1, and
the TCP branch maps a failed probe to `CannotConnect`. -/
theorem scan_aborts_on_port_error_witness :
    scanList probe_port_error 3 (List.range' 1 3) =
      Except.error ScanError.invalidPort ∧
    scanTrace probe_port_error 3 (List.range' 1 3) = List.range' 1 1 ∧
    connect_tcp ProbeOutcome.otherError = Except.error ScanError.cannotConnect :=
  ⟨(scan_aborts_on_port_error probe_port_error 1 3 1 19 (by decide) (by decide) rfl
      (fun y h1 h2 => absurd (Nat.lt_of_lt_of_le h2 h1) (Nat.lt_irrefl y))).1,
   (scan_aborts_on_port_error probe_port_error 1 3 1 19 (by decide) (by decide) rfl
      (fun y h1 h2 => absurd (Nat.lt_of_lt_of_le h2 h1) (Nat.lt_irrefl y))).2.1,
   (scan_aborts_on_port_error probe_port_error 1 3 1 19 (by decide) (by decide) rfl
      (fun y h1 h2 => absurd (Nat.lt_of_lt_of_le h2 h1) (Nat.lt_irrefl y))).2.2
     ProbeOutcome.otherError (fun i h => ProbeOutcome.noConfusion h)⟩

/-- Claim C3: when every address of the range [lo, hi] times out, the scan
probes every address of the range exactly once in ascending order and
then raises `NoDeviceFound`; moreover a timeout at any address below hi
is followed by probing the next address (it also appears in the trace)
rather than by failing. -/
theorem scan_exhausts_range_no_device (behaviour : Nat → ProbeOutcome)
    (lo hi : Nat) (hle : lo ≤ hi)
    (hall : ∀ x, lo ≤ x → x ≤ hi → behaviour x = .noResponse) :
    scanList behaviour hi (List.range' lo (hi + 1 - lo)) = .error .noDeviceFound ∧
    scanTrace behaviour hi (List.range' lo (hi + 1 - lo)) =
      List.range' lo (hi + 1 - lo) ∧
    (∀ x, lo ≤ x → x < hi →
      x + 1 ∈ scanTrace behaviour hi (List.range' lo (hi + 1 - lo))) := by
  obtain ⟨hL, hT⟩ :=
    scan_none_aux behaviour hi (hi + 1 - lo) lo (by omega) (by omega) hall
  refine ⟨hL, hT, ?_⟩
  intro x h1 h2
  rw [hT, List.mem_range'_1]
  omega

/-- Claim C3 witness: over the range [1, 3] with no address answering, the
scan probes 1, 2, 3 in order, then raises `NoDeviceFound`; the timeout at
2 is followed by probing 3. -/
theorem scan_exhausts_range_no_device_witness :
    scanList probe_none 3 (List.range' 1 3) = Except.error ScanError.noDeviceFound ∧
    scanTrace probe_none 3 (List.range' 1 3) = List.range' 1 3 ∧
    (3 : Nat) ∈ scanTrace probe_none 3 (List.range' 1 3) :=
  ⟨(scan_exhausts_range_no_device probe_none 1 3 (by decide)
      (fun x h1 h2 => rfl)).1,
   (scan_exhausts_range_no_device probe_none 1 3 (by decide)
      (fun x h1 h2 => rfl)).2.1,
   (scan_exhausts_range_no_device probe_none 1 3 (by decide)
      (fun x h1 h2 => rfl)).2.2 2 (by decide) (by decide)⟩

/-- Claim C8 (counterexample): a configured device address of 0 (or 300) is
not rejected before any transport call — the scan probes exactly that
out-of-range address (the trace is nonempty) and only afterwards fails
with `NoDeviceFound` when it times out. -/
theorem device_address_counterexample :
    connect_trace probe_none (some 0) = [0] ∧
    connect_and_read_device_info probe_none (some 0) =
      Except.error ScanError.noDeviceFound ∧
    connect_trace probe_none (some 300) = [300] :=
  ⟨rfl, rfl, rfl⟩

/-- Claim C8 (amended): the code performs no validation of the configured
device address — a configured address is probed as-is, whatever its
value, the only guarantee being that nothing else is probed; the
scanner's default range, however, probes only addresses inside
[MIN_DEVICE_ADDRESS, MAX_DEVICE_ADDRESS] = [1, 247]. -/
theorem device_address_no_validation (behaviour : Nat → ProbeOutcome) :
    (∀ x ∈ connect_trace behaviour none,
      MIN_DEVICE_ADDRESS ≤ x ∧ x ≤ MAX_DEVICE_ADDRESS) ∧
    (∀ a : Nat, connect_trace behaviour (some a) ⊆ [a]) := by
  constructor
  · intro x hx
    rw [connect_trace_none] at hx
    have hx' : x ∈ List.range' 1 247 :=
      scanTrace_subset behaviour 247 (List.range' 1 247) hx
    rw [List.mem_range'_1] at hx'
    exact ⟨hx'.1, Nat.lt_succ_iff.mp hx'.2⟩
  · intro a x hx
    rw [connect_trace_some] at hx
    exact scanTrace_subset behaviour a (List.range' a 1) hx

/-- Claim C8 witness: the amended theorem applied to the never-answering
transport, at probed address 1 of the default scan and at the configured
single address 5. -/
theorem device_address_no_validation_witness :
    (MIN_DEVICE_ADDRESS ≤ 1 ∧ 1 ≤ MAX_DEVICE_ADDRESS) ∧ (5 : Nat) ∈ [(5 : Nat)] :=
  ⟨(device_address_no_validation probe_none).1 1 (by decide),
   (device_address_no_validation probe_none).2 5 (by decide)⟩

/-! ## TCP client construction (claim C9) -/

/-- A constructed TCP client: the host and port its socket will be opened
to. -/
structure RenogyRoverTCPClient where
  host : String
  port : Nat
deriving DecidableEq

/-- Modelled from the spec: the default Modbus-TCP port used when the
constructor is called without a port (the `RenogyRoverTCP` class is not
under src, only its callers are; section 4.2 gives host:port with
default port 502). -/
def DEFAULT_TCP_PORT : Nat := 502

/-- Modelled from the spec: the two-argument `RenogyRoverTCP` constructor
opens the connection to the given host and port. -/
def RenogyRoverTCP (host : String) (port : Nat) : RenogyRoverTCPClient :=
  ⟨host, port⟩

/-- Modelled from the spec: a constructor call that omits the port falls
back to the default 502. -/
def RenogyRoverTCP_default_port (host : String) : RenogyRoverTCPClient :=
  RenogyRoverTCP host DEFAULT_TCP_PORT

/-- The TCP client constructed by the config-flow validation path, which
passes both the configured host and the configured port
(`RenogyRoverTCP(host, port)` in `connect_and_read_device_info`). -/
def config_flow_tcp_client (host : String) (port : Nat) : RenogyRoverTCPClient :=
  RenogyRoverTCP host port

/-- The TCP client constructed by the integration setup path
(`async_setup_entry` calls `RenogyRoverTCP(entry.data[CONF_HOST])`): only
the configured host is passed and the configured port is ignored. -/
def async_setup_entry_tcp_client (host : String) (configured_port : Nat) :
    RenogyRoverTCPClient :=
  RenogyRoverTCP_default_port host

/-- Claim C9 (counterexample): the setup path constructs the TCP client for
the configured host and port ("renogy.local", 8502) with port 502 — the
configured port is silently replaced by the default. -/
theorem tcp_port_counterexample :
    (async_setup_entry_tcp_client "renogy.local" 8502).port = 502 ∧
    (8502 : Nat) ≠ 502 :=
  ⟨rfl, by decide⟩

/-- Claim C9 (amended): the config-flow validation path threads the
configured host and port through to the TCP client, but the setup path
passes only the host, so there the connection port is always the default
502 regardless of the configured port. -/
theorem tcp_port_threading_amended (host : String) (port : Nat) :
    (config_flow_tcp_client host port).host = host ∧
    (config_flow_tcp_client host port).port = port ∧
    (async_setup_entry_tcp_client host port).host = host ∧
    (async_setup_entry_tcp_client host port).port = DEFAULT_TCP_PORT :=
  ⟨rfl, rfl, rfl, rfl⟩

end ConfigFlow
